import Mathlib

/-!
Formal model of the BI Assistant chat interface: the session store
(localStorage save/load of chat sessions, with timestamps serialized to
ISO-8601 strings) and the transcript controller (new chat, select, delete,
rename, send-message with a simulated delayed response).

Timestamps (JavaScript `Date` values) are modelled as integers holding
milliseconds since the Unix epoch; an invalid date is `Option.none` where
invalidity can arise.  JSON values are modelled by the inductive `Json`.
The React component state relevant to session bookkeeping (`messages`,
`inputMessage`, `isTyping`, `currentSessionId`, `chatSessions`) is the
record `ControllerState`; presentation-only state (sidebar visibility,
datasource dialog) is omitted because no session operation reads it.
-/

namespace BIAssistant

/-- JSON values, as produced by `JSON.parse`. Numbers are modelled as
integers: every number occurring in the component's data (message counts,
chart values, chart dimensions) is integral. -/
inductive Json where
  | null : Json
  | bool (b : Bool) : Json
  | num (n : Int) : Json
  | str (s : String) : Json
  | arr (xs : List Json) : Json
  | obj (fields : List (String × Json)) : Json

/-- The `type` discriminator of a `Message`: `'user' | 'bot'`. -/
inductive MsgType where
  | user : MsgType
  | bot : MsgType
deriving DecidableEq, Inhabited

/-- Serialized form of the `type` field. -/
def MsgType.toStr : MsgType → String
  | .user => "user"
  | .bot => "bot"

/-- The `Message` interface. `chartSpec` and `tableData` are optional
payloads (typed `any` in the source; every concrete payload is plain JSON). -/
structure Message where
  id : String
  type : MsgType
  content : String
  timestamp : Int
  chartSpec : Option Json := none
  tableData : Option Json := none
deriving Inhabited

/-- The `ChatSession` interface. -/
structure ChatSession where
  id : String
  title : String
  timestamp : Int
  messageCount : Nat
  messages : List Message
deriving Inhabited

/-- The component state the session logic reads and writes:
`messages` (displayed transcript), `inputMessage`, `isTyping`
(true exactly while a simulated response is in flight, i.e. the
awaiting-response state), `currentSessionId` and `chatSessions`. -/
structure ControllerState where
  messages : List Message
  inputMessage : String
  isTyping : Bool
  currentSessionId : String
  chatSessions : List ChatSession

/-! ### Calendar arithmetic for ISO-8601 timestamps

`Date.prototype.toISOString` and ISO-string parsing by `new Date(string)`
are host functions; they are modelled here with the standard proleptic
Gregorian civil-from-days / days-from-civil conversions. -/

/-- Convert a day number (days since 1970-01-01) to a civil
(year, month, day) triple.  Integer division here truncates toward zero,
matching the reference algorithm. -/
def civilFromDays (z0 : Int) : Int × Int × Int :=
  let z := z0 + 719468
  let era := (if 0 ≤ z then z else z - 146096) / 146097
  let doe := z - era * 146097
  let yoe := (doe - doe / 1460 + doe / 36524 - doe / 146096) / 365
  let y := yoe + era * 400
  let doy := doe - (365 * yoe + yoe / 4 - yoe / 100)
  let mp := (5 * doy + 2) / 153
  let d := doy - (153 * mp + 2) / 5 + 1
  let m := mp + (if mp < 10 then 3 else -9)
  ((if m ≤ 2 then y + 1 else y), m, d)

/-- Convert a civil (year, month, day) triple to a day number
(days since 1970-01-01). -/
def daysFromCivil (y0 m d : Int) : Int :=
  let y := if m ≤ 2 then y0 - 1 else y0
  let era := (if 0 ≤ y then y else y - 399) / 400
  let yoe := y - era * 400
  let mp := (m + 9) % 12
  let doy := (153 * mp + 2) / 5 + d - 1
  let doe := yoe * 365 + yoe / 4 - yoe / 100 + doy
  era * 146097 + doe - 719468

/-- Decimal rendering of a natural number left-padded with zeros to
width `w`. -/
def padNum (w : Nat) (n : Nat) : String :=
  let s := toString n
  String.mk (List.replicate (w - s.length) '0') ++ s

/-- Year component of an ISO string: four digits for years 0–9999,
otherwise the expanded `±YYYYYY` form. -/
def isoYear (y : Int) : String :=
  if 0 ≤ y ∧ y ≤ 9999 then padNum 4 y.toNat
  else if 9999 < y then "+" ++ padNum 6 y.toNat
  else "-" ++ padNum 6 (-y).toNat

/-- Model of `Date.prototype.toISOString`: render a millisecond timestamp
as `YYYY-MM-DDTHH:MM:SS.mmmZ`. -/
def dateToISO (t : Int) : String :=
  let day := Int.fdiv t 86400000
  let msod := (Int.emod t 86400000).toNat
  let c := civilFromDays day
  isoYear c.1 ++ "-" ++ padNum 2 c.2.1.toNat ++ "-" ++ padNum 2 c.2.2.toNat
    ++ "T" ++ padNum 2 (msod / 3600000) ++ ":" ++ padNum 2 (msod % 3600000 / 60000)
    ++ ":" ++ padNum 2 (msod % 60000 / 1000) ++ "." ++ padNum 3 (msod % 1000) ++ "Z"

/-- Parse a non-empty list of decimal digits. -/
def digitsToNat (cs : List Char) : Option Nat :=
  if cs ≠ [] ∧ cs.all Char.isDigit then
    some (cs.foldl (fun a c => a * 10 + (c.toNat - 48)) 0)
  else none

/-- Parse the remainder of an ISO date-time string after the year digits. -/
def parseISOAux (sign : Int) (ydigits : List Char) (rest : List Char) : Option Int :=
  match digitsToNat ydigits with
  | none => none
  | some y =>
    match rest with
    | '-' :: m1 :: m2 :: '-' :: d1 :: d2 :: 'T' :: h1 :: h2 :: ':' :: n1 :: n2 ::
        ':' :: s1 :: s2 :: '.' :: f1 :: f2 :: f3 :: ['Z'] =>
      match digitsToNat [m1, m2], digitsToNat [d1, d2], digitsToNat [h1, h2],
            digitsToNat [n1, n2], digitsToNat [s1, s2], digitsToNat [f1, f2, f3] with
      | some mo, some da, some hh, some mi, some ss, some ms =>
        if 1 ≤ mo ∧ mo ≤ 12 ∧ 1 ≤ da ∧ da ≤ 31 ∧ hh ≤ 24 ∧ mi ≤ 59 ∧ ss ≤ 59 then
          some (daysFromCivil (sign * y) mo da * 86400000
            + (hh * 3600000 + mi * 60000 + ss * 1000 + ms : Nat))
        else none
      | _, _, _, _, _, _ => none
    | _ => none

/-- Model of ISO date-time parsing by `new Date(string)`, covering the
format `Date.prototype.toISOString` produces (four-digit or expanded
six-digit signed years); `none` is an invalid date.  Other host-specific
date string formats are never produced by the session store and are not
modelled. -/
def parseISODate (s : String) : Option Int :=
  match s.toList with
  | '+' :: c1 :: c2 :: c3 :: c4 :: c5 :: c6 :: rest =>
    parseISOAux 1 [c1, c2, c3, c4, c5, c6] rest
  | '-' :: c1 :: c2 :: c3 :: c4 :: c5 :: c6 :: rest =>
    parseISOAux (-1) [c1, c2, c3, c4, c5, c6] rest
  | c1 :: c2 :: c3 :: c4 :: rest => parseISOAux 1 [c1, c2, c3, c4] rest
  | _ => none

attribute [irreducible] dateToISO parseISODate

/-- The character set of JavaScript's `String.prototype.trim`: ASCII
whitespace, line terminators, no-break space and the BOM (the remaining
exotic Unicode space separators never occur in this code's inputs). -/
def jsWhitespace (c : Char) : Bool :=
  c == ' ' || c == '\t' || c == '\n' || c == '\r' ||
  c == Char.ofNat 11 || c == Char.ofNat 12 || c == Char.ofNat 160 ||
  c == Char.ofNat 0x2028 || c == Char.ofNat 0x2029 || c == Char.ofNat 0xFEFF

/-- Model of `String.prototype.trim`: drop whitespace from both ends. -/
def jsTrim (s : String) : String :=
  String.mk (((s.toList.dropWhile jsWhitespace).reverse.dropWhile jsWhitespace).reverse)

/-! ### Canned response payloads (`handleSendMessage`, simulated response) -/

/-- The hard-coded Vega-Lite chart specification of the chart response. -/
def salesChartSpec : Json :=
  .obj [
    ("$schema", .str "https://vega.github.io/schema/vega-lite/v5.json"),
    ("description", .str "Sales trends visualization"),
    ("data", .obj [
      ("values", .arr [
        .obj [("month", .str "Jan"), ("sales", .num 28000), ("profit", .num 12000)],
        .obj [("month", .str "Feb"), ("sales", .num 35000), ("profit", .num 15000)],
        .obj [("month", .str "Mar"), ("sales", .num 42000), ("profit", .num 18000)],
        .obj [("month", .str "Apr"), ("sales", .num 38000), ("profit", .num 16500)],
        .obj [("month", .str "May"), ("sales", .num 45000), ("profit", .num 20000)],
        .obj [("month", .str "Jun"), ("sales", .num 52000), ("profit", .num 23000)]])]),
    ("mark", .obj [("type", .str "line"), ("point", .bool true), ("tooltip", .bool true)]),
    ("encoding", .obj [
      ("x", .obj [("field", .str "month"), ("type", .str "ordinal"), ("title", .str "Month")]),
      ("y", .obj [("field", .str "sales"), ("type", .str "quantitative"), ("title", .str "Sales ($)")]),
      ("color", .obj [("value", .str "hsl(var(--primary))")])]),
    ("width", .num 600),
    ("height", .num 300)]

/-- The hard-coded product table of the table response. -/
def productTableData : Json :=
  .obj [
    ("headers", .arr [.str "Product", .str "Revenue", .str "Units Sold", .str "Growth"]),
    ("rows", .arr [
      .arr [.str "Product A", .str "$125,000", .str "2,450", .str "+15%"],
      .arr [.str "Product B", .str "$98,000", .str "1,820", .str "+8%"],
      .arr [.str "Product C", .str "$87,500", .str "1,650", .str "+22%"],
      .arr [.str "Product D", .str "$76,200", .str "1,420", .str "+5%"],
      .arr [.str "Product E", .str "$65,800", .str "1,230", .str "+18%"]])]

/-- The fixed long-form text of the text-only response. -/
def insightsText : String :=
  "Based on the analysis of your data:\n\n**Key Insights:**\n• Revenue has grown by 18% compared to the previous quarter\n• Customer acquisition costs decreased by 12%\n• Product A shows the highest ROI at 35%\n• Regional performance varies significantly, with the West region leading at 42% growth\n\n**Recommendations:**\n1. Increase marketing budget for Product A due to high ROI\n2. Focus on customer retention strategies in underperforming regions\n3. Optimize pricing strategy for Product C to improve margins\n4. Consider expanding distribution channels in the West region\n\nWould you like me to create a detailed visualization or drill down into any specific metric?"

/-- Greeting content of the session seeded by `handleNewChat`. -/
def newChatGreeting : String :=
  "Hello! I'm your Business Intelligence assistant. What insights can I help you discover today?"

/-- Greeting content of the default session synthesized by
`handleDeleteSession` when the last session is deleted. -/
def deleteGreeting : String :=
  "Hello! I'm your Business Intelligence assistant. What can I help you analyze?"

/-! ### Session store: `saveChatSessions` / `loadChatSessions`

The durable slot is abstracted by the outcome of `JSON.parse` on its
content: `Slot.absent` (no stored string), `Slot.malformed` (a stored
string on which `JSON.parse` throws), or `Slot.stored j` (a stored string
parsing to the JSON value `j`).  `saveChatSessions` is modelled as the
JSON value whose `JSON.stringify` rendering is written to the slot; since
`JSON.parse ∘ JSON.stringify` is the identity on JSON values, storing that
value is exactly what a later load observes. -/

/-- Content of the durable storage slot, abstracted by its parse outcome. -/
inductive Slot where
  | absent : Slot
  | malformed : Slot
  | stored (j : Json) : Slot

/-- The field list of a serialized message, in the insertion order of the
source object literals: the `JSON.stringify` replacer turns the `timestamp`
`Date` into its ISO string, and `JSON.stringify` drops the `chartSpec` /
`tableData` keys when those properties are absent. -/
def serializeMessageFields (m : Message) : List (String × Json) :=
  [("id", .str m.id), ("type", .str m.type.toStr), ("content", .str m.content),
   ("timestamp", .str (dateToISO m.timestamp))]
  ++ (match m.chartSpec with | some c => [("chartSpec", c)] | none => [])
  ++ (match m.tableData with | some t => [("tableData", t)] | none => [])

/-- Serialized form of a message. -/
def serializeMessage (m : Message) : Json := .obj (serializeMessageFields m)

/-- Serialized form of a session: the `timestamp` `Date` becomes its ISO
string via the `JSON.stringify` replacer; the other fields serialize as
themselves. -/
def serializeSession (s : ChatSession) : Json :=
  .obj [("id", .str s.id), ("title", .str s.title),
        ("timestamp", .str (dateToISO s.timestamp)),
        ("messageCount", .num s.messageCount),
        ("messages", .arr (s.messages.map serializeMessage))]

/-- Model of `saveChatSessions`: the JSON value written to the
`bi-assistant-sessions` slot. -/
def saveChatSessions (sessions : List ChatSession) : Json :=
  .arr (sessions.map serializeSession)

/-- Property access `v[k]` on a parsed JSON value: throws (`Except.error`)
on `null`, looks keys up on objects, and yields `undefined` (`none`) on
every other value. -/
def getProp : Json → String → Except Unit (Option Json)
  | .null, _ => .error ()
  | .obj fields, k => .ok (fields.lookup k)
  | _, _ => .ok none

/-- Object spread `{...v}`: an object's own fields; an array's or string's
indexed elements; nothing for primitives. -/
def spreadFields : Json → List (String × Json)
  | .obj fields => fields
  | .arr xs => xs.enum.map (fun p => (toString p.1, p.2))
  | .str s => s.toList.enum.map (fun p => (toString p.1, Json.str (String.mk [p.2])))
  | _ => []

/-- The time value of `new Date(v)` for a property value `v`
(`none` both for `undefined` and for an invalid date).  Arrays coerce
through their string form before parsing; no stored session data holds an
array or object timestamp, and such values are modelled as invalid. -/
def newDateFrom : Option Json → Option Int
  | none => none
  | some .null => some 0
  | some (.bool b) => some (if b then 1 else 0)
  | some (.num n) => some n
  | some (.str s) => parseISODate s
  | some (.arr _) => none
  | some (.obj _) => none

/-- The message objects `loadChatSessions` rebuilds:
`{...msg, timestamp: new Date(msg.timestamp)}` — the spread fields of the
parsed value with the `timestamp` property overridden by a `Date`. -/
structure LoadedMessage where
  base : List (String × Json)
  timestamp : Option Int

/-- The session objects `loadChatSessions` rebuilds:
`{...session, timestamp: new Date(...), messages: ...}` — the spread
fields with the `timestamp` and `messages` properties overridden. -/
structure LoadedSession where
  base : List (String × Json)
  timestamp : Option Int
  messages : List LoadedMessage

/-- Rebuild one message from its parsed value; property access on `null`
throws. -/
def restoreMessage (m : Json) : Except Unit LoadedMessage := do
  let tsv ← getProp m "timestamp"
  .ok ⟨spreadFields m, newDateFrom tsv⟩

/-- `msgs.map(restore)`: left-to-right, the first throw propagates. -/
def restoreMessages : List Json → Except Unit (List LoadedMessage)
  | [] => .ok []
  | m :: ms => do
    let r ← restoreMessage m
    let rs ← restoreMessages ms
    .ok (r :: rs)

/-- `session.messages?.map(...) || []`: optional chaining turns a missing
or `null` property into `[]`; calling `.map` on any other non-array value
throws. -/
def restoreMsgField : Option Json → Except Unit (List LoadedMessage)
  | none => .ok []
  | some .null => .ok []
  | some (.arr xs) => restoreMessages xs
  | some _ => .error ()

/-- Rebuild one session from its parsed value. -/
def restoreSession (j : Json) : Except Unit LoadedSession := do
  let base := spreadFields j
  let tsv ← getProp j "timestamp"
  let msv ← getProp j "messages"
  let msgs ← restoreMsgField msv
  .ok ⟨base, newDateFrom tsv, msgs⟩

/-- `parsed.map(restoreSession)`. -/
def restoreSessions : List Json → Except Unit (List LoadedSession)
  | [] => .ok []
  | j :: js => do
    let r ← restoreSession j
    let rs ← restoreSessions js
    .ok (r :: rs)

/-- The `try` block of `loadChatSessions`: an absent slot skips the parse
and falls through to `return []`; a malformed string makes `JSON.parse`
throw; calling `.map` on a parsed non-array value throws. -/
def loadChatSessionsExc : Slot → Except Unit (List LoadedSession)
  | .absent => .ok []
  | .malformed => .error ()
  | .stored (.arr xs) => restoreSessions xs
  | .stored _ => .error ()

/-- Model of `loadChatSessions`: every throw is caught and turned into the
empty list, so the caller always receives a list. -/
def loadChatSessions (slot : Slot) : List LoadedSession :=
  match loadChatSessionsExc slot with
  | .ok l => l
  | .error _ => []

/-! ### Transcript controller handlers

React's `setState` updaters are modelled as pure record updates; the
`Date.now()` / `new Date()` values taken at a handler invocation are
passed in as the parameter `now`. -/

/-- Model of `saveCurrentSession` (also triggered by the
`[messages, currentSessionId]` effect): if a session is active and the
transcript is non-empty, write the transcript and its length back into
the matching entry of the session list (which is then persisted). -/
def saveCurrentSession (s : ControllerState) : ControllerState :=
  if s.currentSessionId ≠ "" ∧ 0 < s.messages.length then
    { s with chatSessions := s.chatSessions.map (fun t =>
        if t.id = s.currentSessionId
          then { t with messages := s.messages, messageCount := s.messages.length }
          else t) }
  else s

/-- Model of `handleNewChat`: prepend a fresh session seeded with one bot
greeting, make it active, display its transcript. -/
def handleNewChat (s : ControllerState) (now : Int) : ControllerState :=
  let initialMessage : Message := ⟨"1", .bot, newChatGreeting, now, none, none⟩
  let newSession : ChatSession := ⟨toString now, "New BI Chat", now, 1, [initialMessage]⟩
  { s with chatSessions := newSession :: s.chatSessions,
           currentSessionId := newSession.id,
           messages := [initialMessage] }

/-- Model of `handleSelectSession`: the active id is set unconditionally;
the displayed transcript is swapped only when a session with that id is
found. -/
def handleSelectSession (s : ControllerState) (sessionId : String) : ControllerState :=
  let s1 := { s with currentSessionId := sessionId }
  match s.chatSessions.find? (fun t => t.id == sessionId) with
  | some sel => { s1 with messages := sel.messages }
  | none => s1

/-- The default session `handleDeleteSession` synthesizes when the list
becomes empty. -/
def deleteDefaultSession (now : Int) : ChatSession :=
  ⟨toString now, "BI Assistant Chat", now, 1, [⟨"1", .bot, deleteGreeting, now, none, none⟩]⟩

/-- Model of `handleDeleteSession`: filter the session out; if the active
session was deleted and sessions remain, promote the new first session;
if none remain, synthesize a fresh default session. -/
def handleDeleteSession (s : ControllerState) (sessionId : String) (now : Int) :
    ControllerState :=
  let updated := s.chatSessions.filter (fun t => t.id != sessionId)
  if s.currentSessionId = sessionId ∧ 0 < updated.length then
    { s with chatSessions := updated,
             currentSessionId := updated.headI.id,
             messages := updated.headI.messages }
  else if updated.length = 0 then
    let newSession := deleteDefaultSession now
    { s with chatSessions := [newSession],
             currentSessionId := newSession.id,
             messages := newSession.messages }
  else
    { s with chatSessions := updated }

/-- The synchronous part of `handleSendMessage`: a no-op when the trimmed
input is empty; otherwise append the user message, clear the input, enter
the awaiting-response state, and schedule the delayed simulated response
(the returned flag records whether a `setTimeout` callback was scheduled).
There is no check of `isTyping` in the handler itself. -/
def handleSendMessage (s : ControllerState) (now : Int) : ControllerState × Bool :=
  if jsTrim s.inputMessage = "" then (s, false)
  else
    let userMessage : Message := ⟨toString now, .user, jsTrim s.inputMessage, now, none, none⟩
    ({ s with messages := s.messages ++ [userMessage],
              inputMessage := "",
              isTyping := true }, true)

/-- The bot message built inside the `setTimeout` callback:
`responseType = Math.floor(Math.random() * 3)` selects the chart response
(0), the table response (1), or the text-only response (otherwise);
`resolveNow` is `Date.now()` at resolution time. -/
def mkBotResponse (responseType : Nat) (resolveNow : Int) : Message :=
  if responseType = 0 then
    ⟨toString (resolveNow + 1), .bot,
     "Here's a visualization of the sales trends over the last quarter:",
     resolveNow, some salesChartSpec, none⟩
  else if responseType = 1 then
    ⟨toString (resolveNow + 1), .bot,
     "Here's a breakdown of the top performing products:",
     resolveNow, none, some productTableData⟩
  else
    ⟨toString (resolveNow + 1), .bot, insightsText, resolveNow, none, none⟩

/-- The `setTimeout` callback of `handleSendMessage` firing: append the
selected bot response and leave the awaiting-response state. -/
def resolveResponse (s : ControllerState) (responseType : Nat) (resolveNow : Int) :
    ControllerState :=
  { s with messages := s.messages ++ [mkBotResponse responseType resolveNow],
           isTyping := false }

/-- The send action as reachable through the UI: the send button carries
`disabled={!inputMessage.trim() || isTyping}` and the textarea (the Enter
key path through `handleKeyPress`) carries `disabled={isTyping}`, so the
handler can only fire when the trimmed input is non-empty and no response
is in flight. -/
def uiSendClick (s : ControllerState) (now : Int) : ControllerState × Bool :=
  if jsTrim s.inputMessage = "" ∨ s.isTyping then (s, false)
  else handleSendMessage s now

/-- Model of `handleRenameSession`: set the matching session's title to
`newTitle`, unconditionally. -/
def handleRenameSession (sessions : List ChatSession) (sessionId newTitle : String) :
    List ChatSession :=
  sessions.map (fun t => if t.id = sessionId then { t with title := newTitle } else t)

/-- Model of `handleSaveEdit` in the chat-history sidebar, the only caller
of `onRenameSession`: rename only when the trimmed edit title is non-empty,
and rename to the trimmed title. -/
def handleSaveEdit (sessions : List ChatSession) (sessionId editTitle : String) :
    List ChatSession :=
  if jsTrim editTitle ≠ "" then handleRenameSession sessions sessionId (jsTrim editTitle)
  else sessions

/-- The `messageCount` cache invariant: every session's cached count
equals the length of its message list. -/
def countsConsistent (sessions : List ChatSession) : Prop :=
  ∀ t ∈ sessions, t.messageCount = t.messages.length

/-! ### Round-trip correspondence -/

/-- The loaded message that restoring a serialized message produces. -/
def expectedMessage (m : Message) : LoadedMessage :=
  ⟨serializeMessageFields m, parseISODate (dateToISO m.timestamp)⟩

/-- The loaded session that restoring a serialized session produces. -/
def expectedSession (s : ChatSession) : LoadedSession :=
  ⟨[("id", .str s.id), ("title", .str s.title),
    ("timestamp", .str (dateToISO s.timestamp)),
    ("messageCount", .num s.messageCount),
    ("messages", .arr (s.messages.map serializeMessage))],
   parseISODate (dateToISO s.timestamp),
   s.messages.map expectedMessage⟩

/-- A loaded message agrees with an in-memory message up to timestamp
serialization: `id`, `type`, `content` and the optional payloads are
preserved exactly, and the timestamp is the original one reparsed from
its ISO string. -/
def msgUpToTs (r : LoadedMessage) (m : Message) : Prop :=
  r.base.lookup "id" = some (.str m.id) ∧
  r.base.lookup "type" = some (.str m.type.toStr) ∧
  r.base.lookup "content" = some (.str m.content) ∧
  r.base.lookup "chartSpec" = m.chartSpec ∧
  r.base.lookup "tableData" = m.tableData ∧
  r.timestamp = parseISODate (dateToISO m.timestamp)

/-- A loaded session agrees with an in-memory session up to timestamp
serialization, message by message. -/
def sessUpToTs (r : LoadedSession) (s : ChatSession) : Prop :=
  r.base.lookup "id" = some (.str s.id) ∧
  r.base.lookup "title" = some (.str s.title) ∧
  r.base.lookup "messageCount" = some (.num s.messageCount) ∧
  r.timestamp = parseISODate (dateToISO s.timestamp) ∧
  List.Forall₂ msgUpToTs r.messages s.messages

/-! ### Concrete fixtures used by counterexamples and witnesses -/

/-- A concrete message. -/
def demoMessage : Message := ⟨"1", .bot, "hello", 0, none, none⟩

/-- A concrete session with id `"1"`. -/
def demoSession : ChatSession := ⟨"1", "Chat A", 0, 1, [demoMessage]⟩

/-- A concrete session with id `"2"`. -/
def demoSession2 : ChatSession := ⟨"2", "Chat B", 0, 1, [demoMessage]⟩

/-- A concrete idle state with one session, active id `"1"`. -/
def demoState : ControllerState := ⟨[demoMessage], "", false, "1", [demoSession]⟩

/-- A concrete state with two sessions `["1", "2"]`, active id `"1"`. -/
def twoState : ControllerState := ⟨[demoMessage], "", false, "1", [demoSession, demoSession2]⟩

/-- A concrete awaiting-response state (`isTyping = true`) with non-empty input. -/
def typingState : ControllerState := ⟨[demoMessage], "hello", true, "1", [demoSession]⟩

/-- A concrete idle state with non-empty input. -/
def sendState : ControllerState := ⟨[demoMessage], "show me sales", false, "1", [demoSession]⟩

theorem restoreMessage_serializeMessage (m : Message) :
    restoreMessage (serializeMessage m) = .ok (expectedMessage m) := rfl

theorem restoreMessages_map (ms : List Message) :
    restoreMessages (ms.map serializeMessage) = .ok (ms.map expectedMessage) := by
  induction ms with
  | nil => rfl
  | cons m ms ih =>
    simp only [List.map_cons, restoreMessages, restoreMessage_serializeMessage, ih]
    rfl

theorem restoreSession_serializeSession (s : ChatSession) :
    restoreSession (serializeSession s) = .ok (expectedSession s) := by
  have h1 : restoreSession (serializeSession s)
      = Except.bind (restoreMessages (s.messages.map serializeMessage))
          (fun msgs => Except.ok
            ⟨[("id", .str s.id), ("title", .str s.title),
              ("timestamp", .str (dateToISO s.timestamp)),
              ("messageCount", .num s.messageCount),
              ("messages", .arr (s.messages.map serializeMessage))],
             parseISODate (dateToISO s.timestamp), msgs⟩) := rfl
  rw [h1, restoreMessages_map]
  rfl

theorem restoreSessions_map (S : List ChatSession) :
    restoreSessions (S.map serializeSession) = .ok (S.map expectedSession) := by
  induction S with
  | nil => rfl
  | cons s S ih =>
    simp only [List.map_cons, restoreSessions, restoreSession_serializeSession, ih]
    rfl

theorem load_save_eq_expected (S : List ChatSession) :
    loadChatSessions (Slot.stored (saveChatSessions S)) = S.map expectedSession := by
  simp only [loadChatSessions, loadChatSessionsExc, saveChatSessions, restoreSessions_map]

theorem msgUpToTs_expected (m : Message) : msgUpToTs (expectedMessage m) m := by
  obtain ⟨id, ty, co, ts, cs, td⟩ := m
  cases cs <;> cases td <;>
    simp [msgUpToTs, expectedMessage, serializeMessageFields, List.lookup]

theorem sessUpToTs_expected (s : ChatSession) : sessUpToTs (expectedSession s) s := by
  refine ⟨rfl, ?_, ?_, rfl, ?_⟩
  · simp [expectedSession, List.lookup]
  · simp [expectedSession, List.lookup]
  · simp only [expectedSession]
    induction s.messages with
    | nil => exact List.Forall₂.nil
    | cons m ms ih => exact List.Forall₂.cons (msgUpToTs_expected m) ih

/-! ### Claims about the session store -/

/-- C4: for every valid session list `S`, loading the saved form returns a
list matching `S` element by element: each session's `id`, `title` and
`messageCount`, and each message's `id`, `type`, `content`, `chartSpec`
and `tableData` are preserved exactly, and each timestamp is the original
one re-parsed from its ISO-8601 serialization (equality up to timestamp
serialization precision). -/
theorem claim4_load_save_roundtrip (S : List ChatSession) :
    List.Forall₂ sessUpToTs (loadChatSessions (Slot.stored (saveChatSessions S))) S := by
  rw [load_save_eq_expected]
  induction S with
  | nil => exact List.Forall₂.nil
  | cons s S ih => exact List.Forall₂.cons (sessUpToTs_expected s) ih

/-- C9 counterexample: a stored JSON array whose element is the empty
object is data of the wrong shape, yet `loadChatSessions` returns a
one-element list of a partially-defaulted session (no fields, invalid
timestamp, empty transcript) rather than the empty list. -/
theorem claim9_counterexample :
    loadChatSessions (Slot.stored (Json.arr [Json.obj []])) ≠ [] ∧
    loadChatSessions (Slot.stored (Json.arr [Json.obj []])) = [⟨[], none, []⟩] := by
  have h2 : loadChatSessions (Slot.stored (Json.arr [Json.obj []]))
      = [⟨[], none, []⟩] := rfl
  exact ⟨by rw [h2]; simp, h2⟩

/-- C9 (amended): `loadChatSessions` returns the empty list when the slot
is absent, when the stored text is not valid JSON (the parse throws), and
when the parsed JSON is not an array (mapping over it throws); every
throw is caught, so the caller always receives a list and never sees an
exception.  A parsed JSON array of wrong-shaped elements, however,
restores to a same-length list of junk sessions (see the
counterexample). -/
theorem claim9_load_fails_soft (j : Json) :
    loadChatSessions Slot.absent = [] ∧
    loadChatSessions Slot.malformed = [] ∧
    ((∀ xs, j ≠ Json.arr xs) → loadChatSessions (Slot.stored j) = []) := by
  refine ⟨rfl, rfl, fun h => ?_⟩
  cases j with
  | arr xs => exact absurd rfl (h xs)
  | null => rfl
  | bool b => rfl
  | num n => rfl
  | str s => rfl
  | obj fields => rfl

/-- C9 witness: the amended theorem at a stored non-array JSON value. -/
theorem claim9_witness :
    loadChatSessions Slot.absent = [] ∧
    loadChatSessions Slot.malformed = [] ∧
    loadChatSessions (Slot.stored (Json.obj [])) = [] :=
  ⟨(claim9_load_fails_soft (Json.obj [])).1,
   (claim9_load_fails_soft (Json.obj [])).2.1,
   (claim9_load_fails_soft (Json.obj [])).2.2 (fun _ h => Json.noConfusion h)⟩

/-! ### Claims about the transcript controller -/

/-- C1 counterexample: selecting the nonexistent id `"2"` from a state
whose only session has id `"1"` changes the active session id to `"2"`,
so the call is not a no-op on the active id. -/
theorem claim1_counterexample :
    (∀ t ∈ demoState.chatSessions, t.id ≠ "2") ∧
    (handleSelectSession demoState "2").currentSessionId ≠ demoState.currentSessionId := by
  constructor
  · intro t ht
    simp only [demoState] at ht
    simp only [List.mem_singleton] at ht
    subst ht
    decide
  · decide

/-- C1 (amended): `selectSession` on an id that occurs in no session
leaves the displayed transcript and the session list unchanged, but
still sets the active session id to the given (nonexistent) id — it is a
no-op only on the transcript. -/
theorem claim1_select_nonexistent (s : ControllerState) (sessionId : String)
    (h : ∀ t ∈ s.chatSessions, t.id ≠ sessionId) :
    (handleSelectSession s sessionId).messages = s.messages ∧
    (handleSelectSession s sessionId).chatSessions = s.chatSessions ∧
    (handleSelectSession s sessionId).currentSessionId = sessionId := by
  have hf : s.chatSessions.find? (fun t => t.id == sessionId) = none := by
    rw [List.find?_eq_none]
    intro t ht
    simpa using h t ht
  simp [handleSelectSession, hf]

/-- C1 witness: the amended theorem at the concrete one-session state. -/
theorem claim1_witness :
    (handleSelectSession demoState "2").messages = demoState.messages ∧
    (handleSelectSession demoState "2").chatSessions = demoState.chatSessions ∧
    (handleSelectSession demoState "2").currentSessionId = "2" :=
  claim1_select_nonexistent demoState "2" (by
    intro t ht
    simp only [demoState, List.mem_singleton] at ht
    subst ht
    decide)

/-- C2: renaming through the sidebar save-edit flow (the only caller of
`handleRenameSession`) is a no-op on the session list when the trimmed
title is empty; with a non-empty trimmed form it renames via
`handleRenameSession`, after which the session with the given id carries
the trimmed new title. -/
theorem claim2_rename_trim_guard (sessions : List ChatSession) (sessionId editTitle : String) :
    (jsTrim editTitle = "" → handleSaveEdit sessions sessionId editTitle = sessions) ∧
    (jsTrim editTitle ≠ "" →
      handleSaveEdit sessions sessionId editTitle
        = handleRenameSession sessions sessionId (jsTrim editTitle) ∧
      ∀ t ∈ handleSaveEdit sessions sessionId editTitle,
        t.id = sessionId → t.title = jsTrim editTitle) := by
  constructor
  · intro h
    simp [handleSaveEdit, h]
  · intro h
    refine ⟨by simp [handleSaveEdit, h], fun t ht hid => ?_⟩
    simp only [handleSaveEdit, if_pos h, handleRenameSession, List.mem_map] at ht
    obtain ⟨a, ha, rfl⟩ := ht
    by_cases hcase : a.id = sessionId
    · simp [hcase]
    · simp only [if_neg hcase] at hid ⊢
      exact absurd hid hcase

/-- C2 witness: the theorem at a whitespace-only title and at a title with
surrounding whitespace. -/
theorem claim2_witness :
    handleSaveEdit [demoSession] "1" "   " = [demoSession] ∧
    ∀ t ∈ handleSaveEdit [demoSession] "1" " New Title ", t.id = "1" → t.title = "New Title" := by
  constructor
  · exact (claim2_rename_trim_guard [demoSession] "1" "   ").1 (by decide)
  · intro t ht hid
    have h := ((claim2_rename_trim_guard [demoSession] "1" " New Title ").2
      (by decide)).2 t ht hid
    rw [h]
    decide

/-- C3 counterexample: in an awaiting-response state (`isTyping = true`)
with non-empty input, invoking the raw `handleSendMessage` handler is not
a no-op — it appends a user message to the transcript and schedules a
simulated response. -/
theorem claim3_counterexample :
    typingState.isTyping = true ∧
    (handleSendMessage typingState 5).1.messages ≠ typingState.messages ∧
    (handleSendMessage typingState 5).2 = true := by
  refine ⟨rfl, ?_, rfl⟩
  intro h
  have hlen : ((handleSendMessage typingState 5).1.messages).length = 2 := rfl
  rw [h] at hlen
  have : (1 : Nat) = 2 := hlen
  exact absurd this (by decide)

/-- C3 (amended): while a simulated response is in flight the send action
reachable through the UI is a no-op, because the textarea and the send
button both carry `disabled` while `isTyping`; the `handleSendMessage`
handler itself performs no awaiting-response check, so only the UI-level
action satisfies the no-op property. -/
theorem claim3_ui_send_noop (s : ControllerState) (now : Int) (h : s.isTyping = true) :
    uiSendClick s now = (s, false) := by
  simp [uiSendClick, h]

/-- C3 witness: the amended theorem at the concrete awaiting-response
state. -/
theorem claim3_witness : uiSendClick typingState 5 = (typingState, false) :=
  claim3_ui_send_noop typingState 5 rfl

/-- C5: deleting the active session either promotes the new first element
of the remaining list (active id and displayed transcript switch to it),
or — when no sessions remain — synthesizes a fresh default session with
exactly one seeded bot greeting message, which becomes the whole list and
the active session. -/
theorem claim5_delete_active (s : ControllerState) (sessionId : String) (now : Int)
    (h : s.currentSessionId = sessionId) :
    (s.chatSessions.filter (fun t => t.id != sessionId) ≠ [] →
      (handleDeleteSession s sessionId now).chatSessions
        = s.chatSessions.filter (fun t => t.id != sessionId) ∧
      (handleDeleteSession s sessionId now).currentSessionId
        = (s.chatSessions.filter (fun t => t.id != sessionId)).headI.id ∧
      (handleDeleteSession s sessionId now).messages
        = (s.chatSessions.filter (fun t => t.id != sessionId)).headI.messages) ∧
    (s.chatSessions.filter (fun t => t.id != sessionId) = [] →
      (handleDeleteSession s sessionId now).chatSessions = [deleteDefaultSession now] ∧
      (handleDeleteSession s sessionId now).currentSessionId = (deleteDefaultSession now).id ∧
      (handleDeleteSession s sessionId now).messages = (deleteDefaultSession now).messages ∧
      (deleteDefaultSession now).messages.length = 1 ∧
      ∀ m ∈ (deleteDefaultSession now).messages, m.type = .bot) := by
  constructor
  · intro hne
    have hlen : 0 < (s.chatSessions.filter (fun t => t.id != sessionId)).length :=
      List.length_pos.mpr hne
    simp [handleDeleteSession, h, hlen]
  · intro he
    have hlen : ¬ 0 < (s.chatSessions.filter (fun t => t.id != sessionId)).length := by
      simp [he]
    simp [handleDeleteSession, h, he, hlen, deleteDefaultSession]

/-- C5 witness: deleting the active session `"1"` from the two-session
state promotes session `"2"`, and deleting the only session of the
one-session state synthesizes the default session. -/
theorem claim5_witness :
    ((handleDeleteSession twoState "1" 99).chatSessions = [demoSession2] ∧
     (handleDeleteSession twoState "1" 99).currentSessionId = "2" ∧
     (handleDeleteSession twoState "1" 99).messages = demoSession2.messages) ∧
    ((handleDeleteSession demoState "1" 99).chatSessions = [deleteDefaultSession 99] ∧
     (handleDeleteSession demoState "1" 99).currentSessionId = (deleteDefaultSession 99).id ∧
     (handleDeleteSession demoState "1" 99).messages = (deleteDefaultSession 99).messages ∧
     (deleteDefaultSession 99).messages.length = 1) := by
  have h1 := (claim5_delete_active twoState "1" 99 rfl).1
    (fun he => absurd (congrArg List.length he) (by decide))
  have h2 := (claim5_delete_active demoState "1" 99 rfl).2 (List.length_eq_zero.mp rfl)
  exact ⟨h1, h2.1, h2.2.1, h2.2.2.1, h2.2.2.2.1⟩

/-- C10: deleting a session that is not active, while at least one session
remains, leaves the active id and the displayed transcript unchanged and
replaces the list by its filter removing exactly the sessions with the
given id, all others unchanged in order and content. -/
theorem claim10_delete_inactive (s : ControllerState) (sessionId : String) (now : Int)
    (h1 : s.currentSessionId ≠ sessionId)
    (h2 : s.chatSessions.filter (fun t => t.id != sessionId) ≠ []) :
    (handleDeleteSession s sessionId now).currentSessionId = s.currentSessionId ∧
    (handleDeleteSession s sessionId now).messages = s.messages ∧
    (handleDeleteSession s sessionId now).chatSessions
      = s.chatSessions.filter (fun t => t.id != sessionId) := by
  have hlen : ¬ (s.chatSessions.filter (fun t => t.id != sessionId)).length = 0 := by
    simpa [List.length_eq_zero] using h2
  simp [handleDeleteSession, h1, hlen]

/-- C10 witness: deleting the inactive session `"2"` from the two-session
state keeps `"1"` active with its transcript and leaves `[demoSession]`. -/
theorem claim10_witness :
    (handleDeleteSession twoState "2" 99).currentSessionId = "1" ∧
    (handleDeleteSession twoState "2" 99).messages = twoState.messages ∧
    (handleDeleteSession twoState "2" 99).chatSessions = [demoSession] := by
  have h := claim10_delete_inactive twoState "2" 99 (by decide)
    (fun he => absurd (congrArg List.length he) (by decide))
  exact h

/-- Every branch of the simulated response constructs a bot message. -/
theorem mkBotResponse_type (rt : Nat) (rnow : Int) : (mkBotResponse rt rnow).type = .bot := by
  unfold mkBotResponse
  split <;> [rfl; split <;> rfl]

/-- C6: with non-empty trimmed input, `handleSendMessage` synchronously
appends exactly one user message (carrying the trimmed input) and
schedules the simulated response; when the delayed response resolves,
exactly one bot message is appended, so the transcript grows by exactly 2
per successful send. -/
theorem claim6_send_appends (s : ControllerState) (now : Int) (rt : Nat) (rnow : Int)
    (h : jsTrim s.inputMessage ≠ "") :
    (handleSendMessage s now).2 = true ∧
    (handleSendMessage s now).1.messages
      = s.messages ++ [⟨toString now, .user, jsTrim s.inputMessage, now, none, none⟩] ∧
    (handleSendMessage s now).1.messages.length = s.messages.length + 1 ∧
    (resolveResponse (handleSendMessage s now).1 rt rnow).messages
      = (handleSendMessage s now).1.messages ++ [mkBotResponse rt rnow] ∧
    (mkBotResponse rt rnow).type = .bot ∧
    (resolveResponse (handleSendMessage s now).1 rt rnow).messages.length
      = s.messages.length + 2 := by
  refine ⟨?_, ?_, ?_, rfl, mkBotResponse_type rt rnow, ?_⟩ <;>
    simp [handleSendMessage, resolveResponse, h]

/-- C6 witness: sending `"show me sales"` from the one-message state gives
a two-message transcript synchronously and a three-message transcript
after the simulated response resolves. -/
theorem claim6_witness :
    (handleSendMessage sendState 5).2 = true ∧
    (handleSendMessage sendState 5).1.messages.length = 2 ∧
    (resolveResponse (handleSendMessage sendState 5).1 2 7).messages.length = 3 := by
  have h := claim6_send_appends sendState 5 2 7 (by decide)
  exact ⟨h.1, h.2.2.1, h.2.2.2.2.2⟩

/-- C7: every simulated assistant response has exactly one of the three
shapes — chart payload (with no table), table payload (with no chart), or
text-only (neither payload) — so the shapes are mutually exclusive. -/
theorem claim7_response_shapes (rt : Nat) (rnow : Int) :
    (((mkBotResponse rt rnow).chartSpec.isSome ∧ (mkBotResponse rt rnow).tableData = none) ∨
     ((mkBotResponse rt rnow).tableData.isSome ∧ (mkBotResponse rt rnow).chartSpec = none) ∨
     ((mkBotResponse rt rnow).chartSpec = none ∧ (mkBotResponse rt rnow).tableData = none)) ∧
    ¬((mkBotResponse rt rnow).chartSpec.isSome ∧ (mkBotResponse rt rnow).tableData.isSome) := by
  by_cases h0 : rt = 0
  · simp [mkBotResponse, h0]
  · by_cases h1 : rt = 1
    · simp [mkBotResponse, h0, h1]
    · simp [mkBotResponse, h0, h1]

/-- `saveCurrentSession` preserves (and re-establishes for the active
session) the messageCount cache invariant. -/
theorem countsConsistent_save (s : ControllerState)
    (h : countsConsistent s.chatSessions) :
    countsConsistent (saveCurrentSession s).chatSessions := by
  unfold saveCurrentSession
  split
  · intro t ht
    simp only [List.mem_map] at ht
    obtain ⟨a, ha, rfl⟩ := ht
    by_cases hcase : a.id = s.currentSessionId
    · simp [hcase]
    · simpa [hcase] using h a ha
  · exact h

/-- The synchronous part of `handleSendMessage` does not touch the session
list. -/
theorem handleSendMessage_chatSessions (s : ControllerState) (now : Int) :
    (handleSendMessage s now).1.chatSessions = s.chatSessions := by
  unfold handleSendMessage
  split <;> rfl

/-- C8: each mutating operation — new chat, delete, rename, and a send
(both its synchronous half and its delayed resolution) followed by the
persistence step `saveCurrentSession` — preserves the invariant that every
session's `messageCount` equals the length of its message list. -/
theorem claim8_messageCount_invariant (s : ControllerState) (sessionId title : String)
    (now : Int) (rt : Nat) (rnow : Int)
    (h : countsConsistent s.chatSessions) :
    countsConsistent (handleNewChat s now).chatSessions ∧
    countsConsistent (handleDeleteSession s sessionId now).chatSessions ∧
    countsConsistent (handleRenameSession s.chatSessions sessionId title) ∧
    countsConsistent (saveCurrentSession (handleSendMessage s now).1).chatSessions ∧
    countsConsistent (saveCurrentSession (resolveResponse s rt rnow)).chatSessions := by
  refine ⟨?_, ?_, ?_, ?_, ?_⟩
  · intro t ht
    simp only [handleNewChat, List.mem_cons] at ht
    rcases ht with rfl | ht
    · rfl
    · exact h t ht
  · intro t ht
    simp only [handleDeleteSession] at ht
    split at ht
    · exact h t (List.mem_of_mem_filter ht)
    · split at ht
      · simp only [List.mem_singleton] at ht
        subst ht
        rfl
      · exact h t (List.mem_of_mem_filter ht)
  · intro t ht
    simp only [handleRenameSession, List.mem_map] at ht
    obtain ⟨a, ha, rfl⟩ := ht
    by_cases hcase : a.id = sessionId
    · simpa [hcase] using h a ha
    · simpa [hcase] using h a ha
  · refine countsConsistent_save _ ?_
    rw [handleSendMessage_chatSessions]
    exact h
  · exact countsConsistent_save _ h

/-- C8 witness: the invariant theorem at the concrete one-session state. -/
theorem claim8_witness :
    countsConsistent (handleNewChat demoState 99).chatSessions ∧
    countsConsistent (handleDeleteSession demoState "1" 99).chatSessions ∧
    countsConsistent (handleRenameSession demoState.chatSessions "1" "T") ∧
    countsConsistent (saveCurrentSession (handleSendMessage demoState 5).1).chatSessions ∧
    countsConsistent (saveCurrentSession (resolveResponse demoState 2 7)).chatSessions := by
  refine claim8_messageCount_invariant demoState "1" "T" 99 2 7 ?_
  intro t ht
  simp only [demoState, List.mem_singleton] at ht
  subst ht
  rfl

end BIAssistant
